import Mathlib

/-!
Verification development for the Gaffer backend's season-state logic.

The definitions below are shallow embeddings of the Python source:
  * the free-transfer reconstruction walks in `app/main.py`
    (`connect_team` lines 129-153 and `debug_ft2` lines 556-569),
  * the chip half-window tracker `chip_used_in_half` in `app/main.py`
    (lines 424-447),
  * the player-availability classifier and the squad-context builder
    `get_full_squad_context` in `app/fpl.py` (lines 108-268).

Machine integers are modelled as `Int`/`Nat` (Python ints are unbounded,
so no overflow modelling is needed); money amounts divided by 10 in the
source are modelled in `ℚ`; Python `None`-able fields are `Option`.
-/

namespace Gaffer

/-! ### Free-transfer reconstruction, `connect_team` (app/main.py 129-153)

The walk starts at `ft = 1`, folds over all but the last history row
(`current[:-1]`), then applies a final adjustment for the in-progress
gameweek (`current[-1]`).  Records are `(event_transfers,
event_transfers_cost)` pairs; both are non-negative in the API. -/

/-- Free transfers consumed in one completed gameweek, per `connect_team`:
`free_used = min(made, ft)` when `cost == 0`, else `made - cost // 4`
(which may be negative, as in the Python source). -/
def connectFreeUsed (ft : Int) (made cost : Nat) : Int :=
  if cost = 0 then min (made : Int) ft else (made : Int) - ((cost / 4 : Nat) : Int)

/-- One step of the completed-gameweek loop in `connect_team`:
`ft = min(5, max(0, ft - free_used) + 1)`. -/
def connectStep (ft : Int) (rec : Nat × Nat) : Int :=
  min 5 (max 0 (ft - connectFreeUsed ft rec.1 rec.2) + 1)

/-- The final in-progress-gameweek adjustment in `connect_team`:
`max(0, ft - made_now)` when `cost_now == 0`, else
`max(0, ft - (made_now - cost_now // 4))`. -/
def connectAdjust (ft : Int) (rec : Nat × Nat) : Int :=
  if rec.2 = 0 then max 0 (ft - (rec.1 : Int))
  else max 0 (ft - ((rec.1 : Int) - ((rec.2 / 4 : Nat) : Int)))

/-- The whole free-transfer reconstruction of `connect_team`: fold the
step over `current[:-1]`, adjust with `current[-1]`, and return
`max(0, ft)`.  An empty history leaves the initial value 1. -/
def connectTeamFT (current : List (Nat × Nat)) : Int :=
  match current with
  | [] => 1
  | _ :: _ =>
      max 0 (connectAdjust (current.dropLast.foldl connectStep 1) (current.getLastD (0, 0)))

/-! ### Free-transfer reconstruction, `debug_ft2` (app/main.py 556-569) -/

/-- Free transfers consumed in one gameweek, per `debug_ft2`:
`free_used = made if cost == 0 else max(0, made - (cost // 4))`. -/
def debugFreeUsed (made cost : Nat) : Int :=
  if cost = 0 then (made : Int) else max 0 ((made : Int) - ((cost / 4 : Nat) : Int))

/-- One step of the `debug_ft2` walk: `ft_after = min(5, ft - free_used + 1)`.
Note the missing inner `max(0, ...)` clamp relative to `connect_team`. -/
def debugStep (ft : Int) (rec : Nat × Nat) : Int :=
  min 5 (ft - debugFreeUsed rec.1 rec.2 + 1)

/-- The whole `debug_ft2` reconstruction: fold the step over every
history row starting from 1. -/
def debugFT (current : List (Nat × Nat)) : Int :=
  current.foldl debugStep 1

/-! ### Spec-side formulas (for comparison against the code)

These two definitions follow the specification's words in section 4.1,
to be compared with the source-derived folds above. -/

/-- Spec formula: `freeUsed = transfersMade` if `transferCost == 0`,
else `max(0, transfersMade - transferCost / 4)` (integer division). -/
def specFreeUsed (made cost : Nat) : Int :=
  if cost = 0 then (made : Int) else max 0 ((made : Int) - ((cost / 4 : Nat) : Int))

/-- Spec formula: `balance = min(5, max(0, balance - freeUsed) + 1)`. -/
def specBalanceUpdate (balance : Int) (made cost : Nat) : Int :=
  min 5 (max 0 (balance - specFreeUsed made cost) + 1)

/-! ### Chip half-window tracker (app/main.py 424-447) -/

/-- One chip usage row from the history endpoint: `c["name"]` is a
required key, `c.get("event", 0)` defaults to 0 when absent. -/
structure ChipEvent where
  name : String
  event : Option Nat
deriving DecidableEq, Repr

/-- The event number read by the code: `c.get("event", 0)`. -/
def ChipEvent.eventNum (c : ChipEvent) : Nat :=
  c.event.getD 0

/-- `chip_used_in_half(name, half)`: scan the usage list; a row of the
right name counts when `half == 1 and ev <= 19` or
`half == 2 and ev >= 20`. -/
def chipUsedInHalf (chips : List ChipEvent) (name : String) (half : Nat) : Bool :=
  chips.any fun c =>
    c.name == name && ((half == 1 && c.eventNum ≤ 19) || (half == 2 && c.eventNum ≥ 20))

/-- A chip's availability for a half: `not chip_used_in_half(name, half)`,
as in the `chip_availability` dict. -/
def chipAvail (chips : List ChipEvent) (name : String) (half : Nat) : Bool :=
  !(chipUsedInHalf chips name half)

/-! ### Player availability classifier (app/fpl.py 185-202) -/

/-- Substring test on character lists, used to model Python's
`needle in hay` membership on strings. -/
def infixOfChars (needle : List Char) : List Char → Bool
  | [] => needle.isEmpty
  | c :: t => needle.isPrefixOf (c :: t) || infixOfChars needle t

/-- Python's `news.lower()`, modelled at the character-list level
(`str.lower` and `Char.toLower` agree on the ASCII news strings). -/
def lowerChars (s : String) : List Char :=
  s.toList.map Char.toLower

/-- Python's `needle in hay` membership with `hay` already lowercased. -/
def strContains (hay : List Char) (needle : String) : Bool :=
  infixOfChars needle.toList hay

/-- The six availability categories produced by the classifier. -/
inductive Availability where
  | suspended
  | out
  | major_doubt
  | doubt
  | minor_concern
  | available
deriving DecidableEq, Repr

/-- Models `chance_playing is not None and chance_playing <= n`. -/
def chanceAtMost (chance : Option Int) (n : Int) : Bool :=
  match chance with
  | some v => v ≤ n
  | none => false

/-- The availability classifier from `get_full_squad_context`
(app/fpl.py 191-202), with `chance` = `chance_of_playing_next_round`
and `news` the raw news string (lowercased at each membership test,
as in the source). -/
def classify (chance : Option Int) (news : String) : Availability :=
  if chance == some 0 || strContains (lowerChars news) "suspended" then .suspended
  else if chance == some 0 || strContains (lowerChars news) "injured"
      || (chance.isSome && chance == some 0) then .out
  else if chanceAtMost chance 25 then .major_doubt
  else if chanceAtMost chance 75 then .doubt
  else if !news.toList.isEmpty then .minor_concern
  else .available

/-! ### Squad context builder (app/fpl.py 108-268)

Dict-shaped payloads become structures; a field read with `.get(key,
default)` in the source is an `Option` resolved with `getD` at the use
site, and the `{}` defaults of `players_by_id.get`/`teams_by_id.get`
become records with every field `none`.  Money fields divided by 10 in
the source live in `ℚ`. -/

/-- One bootstrap `elements` entry, restricted to the fields the builder
reads.  `chance_of_playing_this_round` is read into a local in the
source but never used. -/
structure Player where
  id : Option Nat
  web_name : Option String
  first_name : Option String
  second_name : Option String
  team : Option Nat
  element_type : Option Nat
  now_cost : Option Nat
  form : Option ℚ
  total_points : Option Int
  minutes : Option Nat
  goals_scored : Option Nat
  assists : Option Nat
  clean_sheets : Option Nat
  selected_by_percent : Option ℚ
  news : Option String
  chance_of_playing_next_round : Option Int
  chance_of_playing_this_round : Option Int
deriving DecidableEq, Repr

/-- The `{}` default of `players_by_id.get(pick["element"], {})`. -/
def emptyPlayer : Player :=
  ⟨none, none, none, none, none, none, none, none, none, none, none, none,
   none, none, none, none, none⟩

/-- One bootstrap `teams` entry. -/
structure TeamInfo where
  id : Option Nat
  short_name : Option String
  name : Option String
deriving DecidableEq, Repr

/-- The `{}` default of `teams_by_id.get(player.get("team"), {})`. -/
def emptyTeam : TeamInfo :=
  ⟨none, none, none⟩

/-- One pick row from the picks endpoint. -/
structure Pick where
  element : Nat
  selling_price : Option Nat
  is_captain : Option Bool
  is_vice_captain : Option Bool
  position : Option Nat
deriving DecidableEq, Repr

/-- The `entry_history` object of a picks response. -/
structure History where
  bank : Option Int
  event_transfers : Option Nat
  event_transfers_cost : Option Nat
deriving DecidableEq, Repr

/-- The `{}` default of `picks_data.get("entry_history", {})`. -/
def emptyHistory : History :=
  ⟨none, none, none⟩

/-- The `transfers` object of the `/entry/{id}/` response. -/
structure TransfersInfo where
  limit : Option Int
deriving DecidableEq, Repr

/-- The team summary passed in as `team_data`. -/
structure TeamData where
  transfers : Option TransfersInfo
deriving DecidableEq, Repr

/-- A picks response: `picks`, `entry_history`, `active_chip`. -/
structure PicksData where
  picks : List Pick
  entry_history : Option History
  active_chip : Option String
deriving DecidableEq, Repr

/-- A gameweek event object (only its `id` is read here). -/
structure Event where
  id : Option Nat
deriving DecidableEq, Repr

/-- The result of `get_gameweek_info`: `current` and `next` events. -/
structure GwInfo where
  current : Option Event
  next : Option Event
deriving DecidableEq, Repr

/-- One row of the `/transfers/` response. -/
structure Transfer where
  event : Option Nat
  element_in : Option Nat
  element_out : Option Nat
  element_in_cost : Option Nat
  element_out_cost : Option Nat
deriving DecidableEq, Repr

/-- The bootstrap payload: `elements` and `teams`. -/
structure Bootstrap where
  elements : List Player
  teams : List TeamInfo
deriving DecidableEq, Repr

/-- The external fetches the builder performs: gameweek info, picks per
gameweek, and the transfer history (each may fail, returning `none`). -/
structure FetchEnv where
  gwInfo : Option GwInfo
  picks : Nat → Option PicksData
  transfers : Option (List Transfer)

/-- One member of the `squad` list the builder returns, with exactly the
keys of the dict appended at app/fpl.py 204-228. -/
structure SquadEntry where
  id : Option Nat
  name : String
  full_name : String
  position : String
  team : String
  team_full : String
  price : ℚ
  now_cost : ℚ
  price_change : ℚ
  form : ℚ
  total_points : Int
  minutes : Nat
  goals : Nat
  assists : Nat
  clean_sheets : Nat
  ownership : ℚ
  news : String
  chance_playing : Option Int
  availability : Availability
  is_captain : Bool
  is_vice : Bool
  position_num : Nat
  is_bench : Bool
deriving DecidableEq, Repr

/-- One entry of `gw_transfers`/`recent_transfers (`in`/`out` keys are
rendered as `inName`/`outName`). -/
structure TransferEntry where
  gw : Option Nat
  inName : String
  in_cost : ℚ
  outName : String
  out_cost : ℚ
deriving DecidableEq, Repr

/-- The dict returned by `get_full_squad_context` (app/fpl.py 259-268). -/
structure SquadContext where
  squad : List SquadEntry
  bank : ℚ
  free_transfers : Int
  chip_played : Option String
  gw_transfers : List TransferEntry
  recent_transfers : List TransferEntry
  gw_info : Option GwInfo
  current_gw : Nat
deriving DecidableEq, Repr

/-- `pos_map = {1: "GKP", 2: "DEF", 3: "MID", 4: "FWD"}` with `.get(_, "?")`. -/
def posMap : Option Nat → String
  | some 1 => "GKP"
  | some 2 => "DEF"
  | some 3 => "MID"
  | some 4 => "FWD"
  | _ => "?"

/-- Python's `round(x, 1)`.  All prices are integer multiples of 1/10, so
`x * 10` is an integer and every round-to-nearest convention agrees. -/
def round1 (q : ℚ) : ℚ :=
  ((round (q * 10) : ℤ) : ℚ) / 10

/-- `players_by_id = {p["id"]: p for p in elements}` then
`.get(k, {})`: last entry with a given id wins, missing ids yield the
empty record. -/
def lookupPlayer (elements : List Player) (k : Nat) : Player :=
  (elements.reverse.find? (fun p => p.id == some k)).getD emptyPlayer

/-- `teams_by_id = {t["id"]: t for t in teams}` then
`.get(player.get("team"), {})`. -/
def lookupTeam (teams : List TeamInfo) (k : Option Nat) : TeamInfo :=
  match k with
  | some k => (teams.reverse.find? (fun t => t.id == some k)).getD emptyTeam
  | none => emptyTeam

/-- Python's `f"{first} {second}".strip()` at the character level. -/
def stripConcat (first second : String) : String :=
  String.mk
    (((first.toList ++ ' ' :: second.toList).dropWhile
        Char.isWhitespace).reverse.dropWhile Char.isWhitespace).reverse

/-- Builds one `squad` entry (app/fpl.py 175-228) from a pick, its
resolved player record and the player's resolved team record. -/
def mkSquadEntry (pick : Pick) (player : Player) (team : TeamInfo) : SquadEntry :=
  let selling_price : ℚ := ((pick.selling_price.getD (player.now_cost.getD 0) : ℚ)) / 10
  let now_cost : ℚ := ((player.now_cost.getD 0 : ℚ)) / 10
  let news := player.news.getD ""
  let chance_playing := player.chance_of_playing_next_round
  { id := player.id
    name := player.web_name.getD "Unknown"
    full_name := stripConcat (player.first_name.getD "") (player.second_name.getD "")
    position := posMap player.element_type
    team := team.short_name.getD "?"
    team_full := team.name.getD "?"
    price := selling_price
    now_cost := now_cost
    price_change := round1 (now_cost - selling_price)
    form := player.form.getD 0
    total_points := player.total_points.getD 0
    minutes := player.minutes.getD 0
    goals := player.goals_scored.getD 0
    assists := player.assists.getD 0
    clean_sheets := player.clean_sheets.getD 0
    ownership := player.selected_by_percent.getD 0
    news := news
    chance_playing := chance_playing
    availability := classify chance_playing news
    is_captain := pick.is_captain.getD false
    is_vice := pick.is_vice_captain.getD false
    position_num := pick.position.getD 0
    is_bench := pick.position.getD 0 > 11 }

/-- The free-transfers branch of the builder (app/fpl.py 150-173):
chip sentinel 99, else the authoritative `transfers.limit` path, else
the history-inference fallback. -/
def freeTransfersCalc (chip_played : Option String) (ft_limit : Option Int)
    (made cost : Nat) : Int :=
  if chip_played == some "wildcard" || chip_played == some "freehit" then 99
  else
    match ft_limit with
    | some lim =>
        let free_deducted : Int := if cost = 0 then (made : Int) else 0
        max 0 (lim - free_deducted)
    | none =>
        if 0 < cost then 0
        else if made = 0 then 1
        else max 0 ((made : Int) - (made : Int))

/-- `team_data.get("transfers", {}).get("limit") if team_data else None`. -/
def ftLimitOf (team_data : Option TeamData) : Option Int :=
  match team_data with
  | some td =>
      match td.transfers with
      | some tr => tr.limit
      | none => none
  | none => none

/-- The sort key `lambda x: x.get("event", 0)`. -/
def transferEventKey (t : Transfer) : Nat :=
  t.event.getD 0

/-- `sorted(transfers, key=lambda x: x.get("event", 0), reverse=True)`:
a stable descending sort. -/
def sortTransfersDesc (ts : List Transfer) : List Transfer :=
  ts.mergeSort fun a b => transferEventKey b ≤ transferEventKey a

/-- One `gw_transfers`/`recent_transfers` entry (app/fpl.py 237-243). -/
def transferEntryOf (elements : List Player) (t : Transfer) : TransferEntry :=
  { gw := t.event
    inName := (lookupPlayer elements (t.element_in.getD 0)).web_name.getD "?"
    in_cost := ((t.element_in_cost.getD 0 : ℚ)) / 10
    outName := (lookupPlayer elements (t.element_out.getD 0)).web_name.getD "?"
    out_cost := ((t.element_out_cost.getD 0 : ℚ)) / 10 }

/-- `gw_transfers` (app/fpl.py 231-243): rows of the sorted transfer
list whose `event` equals the target gameweek.  A missing or empty
transfer list yields `[]` either way, matching `if transfers:`. -/
def gwTransfersOf (elements : List Player) (transfers : Option (List Transfer))
    (target : Nat) : List TransferEntry :=
  match transfers with
  | some ts =>
      ((sortTransfersDesc ts).filter fun t => t.event == some target).map
        (transferEntryOf elements)
  | none => []

/-- `recent_transfers` (app/fpl.py 246-257): first five rows of the
sorted transfer list. -/
def recentTransfersOf (elements : List Player)
    (transfers : Option (List Transfer)) : List TransferEntry :=
  match transfers with
  | some ts => ((sortTransfersDesc ts).take 5).map (transferEntryOf elements)
  | none => []

/-- `target_gw = (current or next_gw or {}).get("id", 29)` with
`current`/`next_gw` read from the gameweek-info fetch. -/
def targetGwOf (env : FetchEnv) : Nat :=
  (((env.gwInfo.bind GwInfo.current).or (env.gwInfo.bind GwInfo.next)).bind
    Event.id).getD 29

/-- The picks fetch plus its one-gameweek fallback (app/fpl.py 121-124). -/
def resolvedPicks (env : FetchEnv) : Option PicksData :=
  match env.picks (targetGwOf env) with
  | some pd => some pd
  | none => if 1 < targetGwOf env then env.picks (targetGwOf env - 1) else none

/-- The whole of `get_full_squad_context` after the fetches: the squad
list, bank, free transfers and chip default to `[]`, 0, 1, `none` and
are filled in only when a picks response was obtained. -/
def buildSquadContext (bootstrap : Bootstrap) (team_data : Option TeamData)
    (env : FetchEnv) : SquadContext :=
  let target_gw := targetGwOf env
  let picks_data := resolvedPicks env
  let squad :=
    match picks_data with
    | some pd =>
        pd.picks.map fun pick =>
          let player := lookupPlayer bootstrap.elements pick.element
          mkSquadEntry pick player (lookupTeam bootstrap.teams player.team)
    | none => []
  let bank : ℚ :=
    match picks_data with
    | some pd => (((pd.entry_history.getD emptyHistory).bank.getD 0 : ℚ)) / 10
    | none => 0
  let free_transfers :=
    match picks_data with
    | some pd =>
        freeTransfersCalc pd.active_chip (ftLimitOf team_data)
          ((pd.entry_history.getD emptyHistory).event_transfers.getD 0)
          ((pd.entry_history.getD emptyHistory).event_transfers_cost.getD 0)
    | none => 1
  let chip_played :=
    match picks_data with
    | some pd => pd.active_chip
    | none => none
  { squad := squad
    bank := bank
    free_transfers := free_transfers
    chip_played := chip_played
    gw_transfers := gwTransfersOf bootstrap.elements env.transfers target_gw
    recent_transfers := recentTransfersOf bootstrap.elements env.transfers
    gw_info := env.gwInfo
    current_gw := target_gw }

/-! ## Theorems -/

/-- C1: the free-transfer balance does NOT stay within [0, 5].  The
`connect_team` walk on four completed no-transfer gameweeks followed by
an in-progress record with `transfersMade = 0, transferCost = 8` yields
a final balance of 7 (the adjustment `ft - (made - cost // 4)` adds
`cost // 4` when it exceeds `made`), and one `debug_ft2` step on
`transfersMade = 3, transferCost = 0` from the initial balance 1 yields
-1 (its update lacks the inner `max(0, ...)` clamp). -/
theorem c1_balance_leaves_range :
    connectTeamFT [(0, 0), (0, 0), (0, 0), (0, 0), (0, 8)] = 7 ∧
    debugFT [(3, 0)] = -1 := by
  decide

/-- C2: the per-record formulas of the claim match neither fold exactly.
At balance 1 and a record `transfersMade = 3, transferCost = 0`, the
claimed update `min(5, max(0, balance - freeUsed) + 1)` gives 1, but the
`debug_ft2` step gives -1; and the claimed `freeUsed = transfersMade = 3`,
but `connect_team` consumes `min(transfersMade, balance) = 1`. -/
theorem c2_fold_formulas_diverge :
    debugStep 1 (3, 0) = -1 ∧
    specBalanceUpdate 1 3 0 = 1 ∧
    specFreeUsed 3 0 = 3 ∧
    connectFreeUsed 1 3 0 = 1 := by
  decide

/-- C3 counterexample: the claim says `fitnessPercent == 0` with a note
not mentioning suspension yields Out; the code's first branch fires on
`chance_playing == 0` alone, so fitness 0 with the note "injured"
yields Suspended, not Out. -/
theorem c3_zero_fitness_without_suspension_is_suspended :
    classify (some 0) "injured" = .suspended ∧
    classify (some 0) "injured" ≠ .out := by
  decide

/-- C3 amended: for every input with `fitnessPercent == 0` or a status
note containing "suspended" case-insensitively, the classifier returns
Suspended unconditionally (the `else Out` case of the claim is
unreachable). -/
theorem c3_amended_suspended_always (chance : Option Int) (news : String)
    (h : (chance == some 0 || strContains (lowerChars news) "suspended") = true) :
    classify chance news = .suspended := by
  simp only [classify, h, if_true]

/-- C3 witness: the amended theorem at fitness 0 with an empty note. -/
theorem c3_amended_suspended_always_witness :
    (((some 0 : Option Int) == some 0
        || strContains (lowerChars "") "suspended") = true) ∧
    classify (some 0) "" = .suspended :=
  ⟨by decide, c3_amended_suspended_always (some 0) "" (by decide)⟩

/-- C4 counterexample: the claim says fitness exactly 25 yields Doubt
and fitness exactly 75 does not yield Doubt; the code compares with
`<= 25` and `<= 75`, so 25 yields MajorDoubt and 75 yields Doubt. -/
theorem c4_boundary_counterexample :
    classify (some 25) "" = .major_doubt ∧
    classify (some 75) "" = .doubt := by
  decide

/-- C4 amended: for a non-null fitness percentage not matching the
earlier suspension/injury rules, the classifier returns MajorDoubt
exactly when fitness ≤ 25 and Doubt exactly when 25 < fitness ≤ 75. -/
theorem c4_amended_boundaries (v : Int) (news : String)
    (h0 : v ≠ 0)
    (hs : strContains (lowerChars news) "suspended" = false)
    (hi : strContains (lowerChars news) "injured" = false) :
    (classify (some v) news = .major_doubt ↔ v ≤ 25) ∧
    (classify (some v) news = .doubt ↔ 25 < v ∧ v ≤ 75) := by
  have hb : ((some v : Option Int) == some 0) = false := by
    simp [h0]
  by_cases h25 : v ≤ 25 <;> by_cases h75 : v ≤ 75 <;>
    simp [classify, chanceAtMost, hb, hs, hi, h25, h75] <;>
    first
      | omega
      | (constructor <;> split <;> simp)

/-- C4 witness: the amended theorem at fitness 30 with an empty note. -/
theorem c4_amended_boundaries_witness :
    (30 : Int) ≠ 0 ∧
    strContains (lowerChars "") "suspended" = false ∧
    strContains (lowerChars "") "injured" = false ∧
    ((classify (some 30) "" = .major_doubt ↔ (30 : Int) ≤ 25) ∧
     (classify (some 30) "" = .doubt ↔ (25 : Int) < 30 ∧ (30 : Int) ≤ 75)) :=
  ⟨by decide, by decide, by decide,
   c4_amended_boundaries 30 "" (by decide) (by decide) (by decide)⟩

/-- C8: on the history-inference fallback path (no wildcard/free-hit
chip and no authoritative `transfers.limit`), a gameweek with zero
transfer cost and at least one transfer made always yields 0 free
transfers, because `max(0, ft_made - ft_made)` is 0. -/
theorem c8_history_fallback_always_zero (chip : Option String) (made : Nat)
    (hw : chip ≠ some "wildcard") (hf : chip ≠ some "freehit")
    (hm : 1 ≤ made) :
    freeTransfersCalc chip none made 0 = 0 := by
  have hb : (chip == some "wildcard" || chip == some "freehit") = false := by
    simp [hw, hf]
  have hm0 : made ≠ 0 := by omega
  simp [freeTransfersCalc, hb, hm0]

/-- C5: chip availability for (kind, half) is true exactly when no
usage event of that kind has its gameweek number in that half's range
(First = events ≤ 19, Second = events ≥ 20); duplicating an existing
usage event leaves every availability unchanged; and a Wildcard used at
event 15 makes (Wildcard, First) false while (Wildcard, Second) and
both Free Hit halves stay true. -/
theorem c5_chip_availability :
    (∀ (chips : List ChipEvent) (name : String) (half : Nat),
      chipAvail chips name half = true ↔
      ∀ c ∈ chips, ¬(c.name = name ∧
        ((half = 1 ∧ c.eventNum ≤ 19) ∨ (half = 2 ∧ 20 ≤ c.eventNum)))) ∧
    (∀ (chips : List ChipEvent) (c : ChipEvent), c ∈ chips →
      ∀ (name : String) (half : Nat),
        chipAvail (c :: chips) name half = chipAvail chips name half) ∧
    (chipAvail [⟨"wildcard", some 15⟩] "wildcard" 1 = false ∧
     chipAvail [⟨"wildcard", some 15⟩] "wildcard" 2 = true ∧
     chipAvail [⟨"wildcard", some 15⟩] "freehit" 1 = true ∧
     chipAvail [⟨"wildcard", some 15⟩] "freehit" 2 = true) := by
  refine ⟨fun chips name half => ?_, fun chips c hm name half => ?_, by decide⟩
  · simp [chipAvail, chipUsedInHalf, List.any_eq_true, not_exists]
  · simp only [chipAvail, chipUsedInHalf, List.any_cons]
    cases hpc : (c.name == name
        && ((half == 1 && decide (c.eventNum ≤ 19))
          || (half == 2 && decide (20 ≤ c.eventNum)))) with
    | false => simp [hpc]
    | true =>
        have hany : chips.any (fun c => c.name == name
            && ((half == 1 && decide (c.eventNum ≤ 19))
              || (half == 2 && decide (20 ≤ c.eventNum)))) = true :=
          List.any_eq_true.mpr ⟨c, hm, hpc⟩
        simp [hpc, hany]

/-- C5 witness: duplicating the Wildcard-at-15 event leaves the
first-half availability unchanged. -/
theorem c5_chip_availability_witness :
    (⟨"wildcard", some 15⟩ : ChipEvent) ∈ [(⟨"wildcard", some 15⟩ : ChipEvent)] ∧
    chipAvail [⟨"wildcard", some 15⟩, ⟨"wildcard", some 15⟩] "wildcard" 1
      = chipAvail [⟨"wildcard", some 15⟩] "wildcard" 1 :=
  ⟨by decide,
   c5_chip_availability.2.1 [⟨"wildcard", some 15⟩] ⟨"wildcard", some 15⟩
     (by decide) "wildcard" 1⟩

/-- C9 counterexample: the claim says a usage event with a malformed
(absent or zero) event number is rejected and changes no availability;
the code defaults the event number to 0, which satisfies `ev <= 19`, so
a Wildcard row without an event number flips (Wildcard, First) to
unavailable. -/
theorem c9_malformed_event_changes_availability :
    ChipEvent.eventNum ⟨"wildcard", none⟩ = 0 ∧
    chipAvail [⟨"wildcard", none⟩] "wildcard" 1 = false ∧
    chipAvail ([] : List ChipEvent) "wildcard" 1 = true := by
  decide

/-- C9 amended: a usage event whose event number is malformed (absent
or zero, hence read as 0) is not rejected: it makes (its kind, First)
unavailable, leaves every second-half availability as computed from the
remaining events, and events of other kinds are unaffected by it while
still being processed. -/
theorem c9_amended_malformed_counts_in_first_half
    (chips : List ChipEvent) (c : ChipEvent) (name : String) (half : Nat)
    (h : c.eventNum = 0) :
    (c.name = name → chipAvail (c :: chips) name 1 = false) ∧
    (chipAvail (c :: chips) name 2 = chipAvail chips name 2) ∧
    (c.name ≠ name → chipAvail (c :: chips) name half = chipAvail chips name half) := by
  refine ⟨fun he => ?_, ?_, fun hne => ?_⟩
  · simp [chipAvail, chipUsedInHalf, List.any_cons, he, h]
  · simp [chipAvail, chipUsedInHalf, List.any_cons, h]
  · simp [chipAvail, chipUsedInHalf, List.any_cons, hne]

/-- C9 witness: the amended theorem on a lone event-less Wildcard row. -/
theorem c9_amended_malformed_counts_in_first_half_witness :
    ChipEvent.eventNum ⟨"wildcard", none⟩ = 0 ∧
    chipAvail [⟨"wildcard", none⟩] "wildcard" 1 = false ∧
    chipAvail [⟨"wildcard", none⟩] "wildcard" 2 = chipAvail [] "wildcard" 2 :=
  ⟨rfl,
   (c9_amended_malformed_counts_in_first_half [] ⟨"wildcard", none⟩
     "wildcard" 1 rfl).1 rfl,
   (c9_amended_malformed_counts_in_first_half [] ⟨"wildcard", none⟩
     "wildcard" 1 rfl).2.1⟩

/-- C8 witness: the fallback with no chip and 2 transfers made. -/
theorem c8_history_fallback_always_zero_witness :
    (none : Option String) ≠ some "wildcard" ∧
    (none : Option String) ≠ some "freehit" ∧
    1 ≤ 2 ∧
    freeTransfersCalc none none 2 0 = 0 :=
  ⟨by decide, by decide, by decide,
   c8_history_fallback_always_zero none 2 (by decide) (by decide) (by decide)⟩

/-- C6 counterexample: the claim says a sell price that falls back to
the market price carries an explicit "no sell-price reported" flag; the
builder has no such flag, so the entry built from a pick with no
reported sell price is identical to the entry built from a pick whose
reported sell price equals the market price (`now_cost = 50`). -/
theorem c6_fallback_indistinguishable :
    (Pick.mk 7 none (some false) (some false) (some 1)).selling_price = none ∧
    (Pick.mk 7 (some 50) (some false) (some false) (some 1)).selling_price
      = some 50 ∧
    mkSquadEntry ⟨7, none, some false, some false, some 1⟩
      ⟨some 7, some "Saka", some "Bukayo", some "Saka", some 1, some 3, some 50,
       some 5, some 100, some 900, some 4, some 6, some 3, some 20, some "",
       none, none⟩ ⟨some 1, some "ARS", some "Arsenal"⟩
    =
    mkSquadEntry ⟨7, some 50, some false, some false, some 1⟩
      ⟨some 7, some "Saka", some "Bukayo", some "Saka", some 1, some 3, some 50,
       some 5, some 100, some 900, some 4, some 6, some 3, some 20, some "",
       none, none⟩ ⟨some 1, some "ARS", some "Arsenal"⟩ :=
  ⟨rfl, rfl, rfl⟩

/-- C6 amended: when no sell price is reported upstream, the market
price is used in its place silently: the resulting squad entry is
exactly the one a genuinely reported sell price equal to the market
price would produce, with no flag distinguishing the two. -/
theorem c6_amended_silent_market_fallback (pick : Pick) (player : Player)
    (team : TeamInfo) (h : pick.selling_price = none) :
    mkSquadEntry pick player team =
      mkSquadEntry { pick with selling_price := some (player.now_cost.getD 0) }
        player team := by
  cases pick with
  | mk el sp ic iv pos =>
      cases h
      rfl

/-- C6 witness: the amended theorem on a pick with no sell price. -/
theorem c6_amended_silent_market_fallback_witness :
    (Pick.mk 7 none (some false) (some false) (some 1)).selling_price = none ∧
    mkSquadEntry ⟨7, none, some false, some false, some 1⟩
      ⟨some 7, some "Saka", some "Bukayo", some "Saka", some 1, some 3, some 50,
       some 5, some 100, some 900, some 4, some 6, some 3, some 20, some "",
       none, none⟩ ⟨some 1, some "ARS", some "Arsenal"⟩
    =
    mkSquadEntry
      { (⟨7, none, some false, some false, some 1⟩ : Pick) with
        selling_price := some ((Player.now_cost
          ⟨some 7, some "Saka", some "Bukayo", some "Saka", some 1, some 3,
           some 50, some 5, some 100, some 900, some 4, some 6, some 3,
           some 20, some "", none, none⟩).getD 0) }
      ⟨some 7, some "Saka", some "Bukayo", some "Saka", some 1, some 3, some 50,
       some 5, some 100, some 900, some 4, some 6, some 3, some 20, some "",
       none, none⟩ ⟨some 1, some "ARS", some "Arsenal"⟩ :=
  ⟨rfl,
   c6_amended_silent_market_fallback ⟨7, none, some false, some false, some 1⟩
     ⟨some 7, some "Saka", some "Bukayo", some "Saka", some 1, some 3, some 50,
      some 5, some 100, some 900, some 4, some 6, some 3, some 20, some "",
      none, none⟩ ⟨some 1, some "ARS", some "Arsenal"⟩ rfl⟩

/-- C7 counterexample: the claim says the snapshot built from the
previous gameweek's picks is marked "stale by one gameweek"; the
builder only logs the fallback, and the context built when GW 29 picks
are missing and GW 28 picks are used instead is identical to the
context built from an up-to-date GW 29 response — nothing marks it. -/
theorem c7_no_stale_marking :
    (fun g => if g = 28 then some (⟨[], none, none⟩ : PicksData) else none) 29
      = none ∧
    buildSquadContext ⟨[], []⟩ none
      ⟨none, fun g => if g = 28 then some ⟨[], none, none⟩ else none, none⟩
    =
    buildSquadContext ⟨[], []⟩ none
      ⟨none, fun g => if g = 29 then some ⟨[], none, none⟩ else none, none⟩ :=
  ⟨rfl, rfl⟩

/-- C7 amended: when the target gameweek's picks response is missing
(and the target gameweek is past GW 1), the builder does not fail: it
falls back to the previous gameweek's picks, and the resulting context
equals the one an up-to-date response with the same picks would give —
the snapshot is not marked stale. -/
theorem c7_amended_fallback_unmarked (boot : Bootstrap) (td : Option TeamData)
    (env : FetchEnv) (pd : PicksData)
    (hgt : 1 < targetGwOf env)
    (hnone : env.picks (targetGwOf env) = none)
    (hprev : env.picks (targetGwOf env - 1) = some pd) :
    buildSquadContext boot td env =
      buildSquadContext boot td
        { env with
          picks := fun g => if g = targetGwOf env then some pd else env.picks g } := by
  have ht : targetGwOf { env with
      picks := fun g => if g = targetGwOf env then some pd else env.picks g }
      = targetGwOf env := rfl
  have h1 : resolvedPicks env = some pd := by
    simp [resolvedPicks, hnone, hgt, hprev]
  have h2 : resolvedPicks { env with
      picks := fun g => if g = targetGwOf env then some pd else env.picks g }
      = some pd := by
    simp [resolvedPicks, ht]
  simp [buildSquadContext, h1, h2, ht]

/-- C7 witness: the amended theorem with GW 29 picks missing and GW 28
picks present. -/
theorem c7_amended_fallback_unmarked_witness :
    1 < targetGwOf
      ⟨none, fun g => if g = 28 then some ⟨[], none, none⟩ else none, none⟩ ∧
    (fun g => if g = 28 then some (⟨[], none, none⟩ : PicksData) else none) 29
      = none ∧
    (fun g => if g = 28 then some (⟨[], none, none⟩ : PicksData) else none) 28
      = some ⟨[], none, none⟩ ∧
    buildSquadContext ⟨[], []⟩ none
      ⟨none, fun g => if g = 28 then some ⟨[], none, none⟩ else none, none⟩
    =
    buildSquadContext ⟨[], []⟩ none
      { gwInfo := none
        picks := fun g =>
          if g = targetGwOf
              ⟨none, fun g => if g = 28 then some ⟨[], none, none⟩ else none, none⟩
          then some ⟨[], none, none⟩
          else (fun g => if g = 28 then some (⟨[], none, none⟩ : PicksData) else none) g
        transfers := none } :=
  ⟨by decide, rfl, rfl,
   c7_amended_fallback_unmarked ⟨[], []⟩ none
     ⟨none, fun g => if g = 28 then some ⟨[], none, none⟩ else none, none⟩
     ⟨[], none, none⟩ (by decide) rfl rfl⟩

/-- C10: when picks data is unavailable for both the target gameweek
and the previous one, the builder still returns a context (it is a
total function) with an empty squad, bank 0, one free transfer and no
active chip. -/
theorem c10_missing_picks_defaults (boot : Bootstrap) (td : Option TeamData)
    (env : FetchEnv)
    (h1 : env.picks (targetGwOf env) = none)
    (h2 : env.picks (targetGwOf env - 1) = none) :
    (buildSquadContext boot td env).squad = [] ∧
    (buildSquadContext boot td env).bank = 0 ∧
    (buildSquadContext boot td env).free_transfers = 1 ∧
    (buildSquadContext boot td env).chip_played = none := by
  have hres : resolvedPicks env = none := by
    simp [resolvedPicks, h1, h2]
  simp [buildSquadContext, hres]

/-- C10 witness: the theorem on an environment whose picks fetch always
fails. -/
theorem c10_missing_picks_defaults_witness :
    FetchEnv.picks ⟨none, fun _ => none, none⟩
      (targetGwOf ⟨none, fun _ => none, none⟩) = none ∧
    FetchEnv.picks ⟨none, fun _ => none, none⟩
      (targetGwOf ⟨none, fun _ => none, none⟩ - 1) = none ∧
    ((buildSquadContext ⟨[], []⟩ none ⟨none, fun _ => none, none⟩).squad = [] ∧
     (buildSquadContext ⟨[], []⟩ none ⟨none, fun _ => none, none⟩).bank = 0 ∧
     (buildSquadContext ⟨[], []⟩ none
        ⟨none, fun _ => none, none⟩).free_transfers = 1 ∧
     (buildSquadContext ⟨[], []⟩ none
        ⟨none, fun _ => none, none⟩).chip_played = none) :=
  ⟨rfl, rfl,
   c10_missing_picks_defaults ⟨[], []⟩ none ⟨none, fun _ => none, none⟩ rfl rfl⟩

end Gaffer
